import Mathlib

/-!
Shallow embedding of the PocketPaw gateway (pocketclaw package) in Lean 4.

The embedding covers the four source modules:
  * `config.py`        — the `Settings` record and what `Settings.save` writes;
  * `llm/router.py`    — `LLMRouter._detect_backend` and `LLMRouter.chat`;
  * `bot_gateway.py`   — the `BotGateway` handlers (pairing, authorization,
    panic, agent-mode toggle, settings callbacks, message dispatch);
  * `dashboard.py`     — the websocket action loop, `handle_tool` and
    `handle_file_browse`.

External collaborators (Telegram, httpx, the scheduler, the daemon, the skill
loader, the message bus, the agent backends) are modelled as parameters of an
environment record; side effects (sent events, file writes, stop calls) are
modelled as explicit effect lists.  Python truthiness tests on optional values
are translated explicitly (`None` and `0` / `""` are falsy).
-/

namespace Pocketclaw

/-! ## String helpers

The built-in Lean `String` functions do not reduce well inside the kernel, so
the few string operations the source uses (leading-part test, split, slice,
lower-casing for sort keys) are implemented over the underlying character
lists.  `strLower` models the Python `str.lower()` on the ASCII range, which
is all the sort-key comparison in `handle_file_browse` needs.
-/

def strStartsWith (s p : String) : Bool :=
  List.isPrefixOf p.data s.data

def strAppend (a b : String) : String :=
  String.mk (a.data ++ b.data)

def strDrop (s : String) (n : Nat) : String :=
  String.mk (s.data.drop n)

def splitOnAux (sep : Char) : List Char → List Char → List (List Char)
  | [], acc => [acc.reverse]
  | c :: cs, acc =>
      if c = sep then acc.reverse :: splitOnAux sep cs []
      else splitOnAux sep cs (c :: acc)

def strSplitOn (s : String) (sep : Char) : List String :=
  (splitOnAux sep s.data []).map String.mk

def lowerCode (c : Char) : Nat :=
  if 65 ≤ c.toNat ∧ c.toNat ≤ 90 then c.toNat + 32 else c.toNat

def strLower (s : String) : List Nat :=
  s.data.map lowerCode

/-- Lexicographic `≤` on code-point lists; this is how Python compares the
lowered names in the `sorted` key of `handle_file_browse`. -/
def lexLe : List Nat → List Nat → Bool
  | [], _ => true
  | _ :: _, [] => false
  | a :: as, b :: bs =>
      if a < b then true
      else if a = b then lexLe as bs
      else false

/-! ## A stable insertion sort

The Python `sorted` is a stable sort by a key function; a stable sort over a
total preorder is unique, so a stable insertion sort is an exact model. -/

def insertSorted (le : α → α → Bool) (x : α) : List α → List α
  | [] => [x]
  | y :: ys => if le x y then x :: y :: ys else y :: insertSorted le x ys

def sortByLe (le : α → α → Bool) : List α → List α
  | [] => []
  | x :: xs => insertSorted le x (sortByLe le xs)

/-! ## Settings (`config.py`) -/

/-- A JSON scalar as written by `Settings.save` (`json.dumps`). -/
inductive JVal
  | jnull
  | jstr (s : String)
  | jint (n : Int)
deriving Repr, DecidableEq

def JVal.ofOptStr : Option String → JVal
  | none => .jnull
  | some s => .jstr s

def JVal.ofOptInt : Option Int → JVal
  | none => .jnull
  | some n => .jint n

/-- The `Settings` model of `config.py` (pydantic `BaseSettings`). -/
structure Settings where
  telegram_bot_token : Option String
  allowed_user_id : Option Int
  agent_backend : String
  llm_provider : String
  ollama_host : String
  ollama_model : String
  openai_api_key : Option String
  openai_model : String
  anthropic_api_key : Option String
  anthropic_model : String
  file_jail_path : String
  web_host : String
  web_port : Nat
deriving Repr, DecidableEq

/-- The field defaults of `config.py`; `home` stands for `Path.home()`,
the `default_factory` of `file_jail_path`. -/
def Settings.defaults (home : String) : Settings where
  telegram_bot_token := none
  allowed_user_id := none
  agent_backend := "open_interpreter"
  llm_provider := "auto"
  ollama_host := "http://localhost:11434"
  ollama_model := "llama3.2"
  openai_api_key := none
  openai_model := "gpt-4o"
  anthropic_api_key := none
  anthropic_model := "claude-sonnet-4-20250514"
  file_jail_path := home
  web_host := "127.0.0.1"
  web_port := 8888

/-- The full file contents written by `Settings.save` (`config.py` lines
56-71): the `data` dict serialized by `json.dumps` and written with
`write_text`, i.e. the file is rewritten in full with exactly these keys. -/
def Settings.save (s : Settings) : List (String × JVal) :=
  [ ("telegram_bot_token", JVal.ofOptStr s.telegram_bot_token),
    ("allowed_user_id", JVal.ofOptInt s.allowed_user_id),
    ("agent_backend", JVal.jstr s.agent_backend),
    ("llm_provider", JVal.jstr s.llm_provider),
    ("ollama_host", JVal.jstr s.ollama_host),
    ("ollama_model", JVal.jstr s.ollama_model),
    ("openai_api_key", JVal.ofOptStr s.openai_api_key),
    ("openai_model", JVal.jstr s.openai_model),
    ("anthropic_api_key", JVal.ofOptStr s.anthropic_api_key),
    ("anthropic_model", JVal.jstr s.anthropic_model) ]

/-- Python truthiness of an optional integer (`None` and `0` are falsy). -/
def truthyOptInt : Option Int → Bool
  | none => false
  | some n => n ≠ 0

/-- Python truthiness of an optional string (`None` and `""` are falsy). -/
def truthyOptStr : Option String → Bool
  | none => false
  | some s => s ≠ ""

/-! ## LLM router (`llm/router.py`) -/

/-- One conversation turn (an element of `conversation_history`). -/
structure Turn where
  role : String
  content : String
deriving Repr, DecidableEq

/-- The mutable state of an `LLMRouter` instance (its `Settings` reference is
passed separately, since it is the process-wide shared object). -/
structure LLMState where
  conversation_history : List Turn
  available_backend : Option String
deriving Repr, DecidableEq

namespace LLMRouter

/-- `LLMRouter._detect_backend` (`router.py` lines 30-58).  `ollamaUp` is the
outcome of the `_check_ollama` liveness probe (an external HTTP call);
credential presence is Python truthiness of the key fields. -/
def detect_backend (s : Settings) (ollamaUp : Bool) : Option String :=
  if s.llm_provider = "ollama" then
    if ollamaUp then some "ollama" else none
  else if s.llm_provider = "openai" then
    if truthyOptStr s.openai_api_key then some "openai" else none
  else if s.llm_provider = "anthropic" then
    if truthyOptStr s.anthropic_api_key then some "anthropic" else none
  else if s.llm_provider = "auto" then
    if ollamaUp then some "ollama"
    else if truthyOptStr s.openai_api_key then some "openai"
    else if truthyOptStr s.anthropic_api_key then some "anthropic"
    else none
  else none

/-- The guided diagnostic returned by `chat` when no backend is available. -/
def noBackendMsg : String :=
  "❌ No LLM backend available.\n\n" ++
  "Options:\n" ++
  "• Install [Ollama](https://ollama.ai) and run `ollama run llama3.2`\n" ++
  "• Add OpenAI API key in ⚙️ Settings\n" ++
  "• Add Anthropic API key in ⚙️ Settings"

/-- The diagnostic returned when the provider call raises (`router.py` line 91). -/
def llmErrorMsg (e : String) : String := "❌ LLM Error: " ++ e

/-- `LLMRouter.chat` (`router.py` lines 60-91).  `call b` is the
provider-specific call (`_chat_ollama` / `_chat_openai` / `_chat_anthropic`),
an external collaborator returning either the reply or the raised exception
message. -/
def chat (call : String → Except String String) (s : Settings) (ollamaUp : Bool)
    (st : LLMState) (message : String) : LLMState × String :=
  let backend :=
    if truthyOptStr st.available_backend then st.available_backend
    else detect_backend s ollamaUp
  let st := { st with available_backend := backend }
  match backend with
  | none => (st, noBackendMsg)
  | some b =>
    if b = "" then (st, noBackendMsg)
    else
      let st := { st with
        conversation_history := st.conversation_history ++ [⟨"user", message⟩] }
      let result : Except String String :=
        if b = "ollama" ∨ b = "openai" ∨ b = "anthropic" then call b
        else Except.ok "Unknown backend"
      match result with
      | .ok r =>
          ({ st with
             conversation_history := st.conversation_history ++ [⟨"assistant", r⟩] }, r)
      | .error e => (st, llmErrorMsg e)

end LLMRouter

/-! ## File browser (`dashboard.py`, `handle_file_browse`) -/

/-- One directory entry as seen by `resolved_path.iterdir()` in
`handle_file_browse`.  `stat` is the outcome of `item.stat().st_size`:
`some n` on success, `none` when the stat call raises. -/
structure Entry where
  name : String
  isDir : Bool
  stat : Option Nat
deriving Repr, DecidableEq

/-- One element of the `files` list sent to the client: the `file_info`
dict (`name`, `isDir`, and for non-directories a rendered `size`). -/
structure FileInfo where
  name : String
  isDir : Bool
  size : Option String
deriving Repr, DecidableEq

/-- Render `n` tenths as a one-decimal string (`q.d`). -/
def tenthsStr (t : Nat) : String :=
  toString (t / 10) ++ "." ++ toString (t % 10)

/-- The size rendering of `handle_file_browse` (bytes / KB / MB; the
one-decimal rendering of the Python float format is modelled with rounded
integer tenths — no listing property below depends on the digits). -/
def formatSize (size : Nat) : String :=
  if size < 1024 then toString size ++ " B"
  else if size < 1024 * 1024 then tenthsStr ((size * 10 + 512) / 1024) ++ " KB"
  else tenthsStr ((size * 10 + 512 * 1024) / (1024 * 1024)) ++ " MB"

/-- The sort key of `handle_file_browse`:
`key=lambda x: (not x.is_dir(), x.name.lower())`. -/
def entKey (e : Entry) : Nat := if e.isDir then 0 else 1

/-- Boolean `≤` for the tuple key `(not is_dir, name.lower())`. -/
def entLE (a b : Entry) : Bool :=
  decide (entKey a < entKey b) ||
    (decide (entKey a = entKey b) && lexLe (strLower a.name) (strLower b.name))

/-- The `file_info` dict built for one entry (`handle_file_browse` lines
567-582): directories carry no size; a stat failure degrades to `"?"`. -/
def renderEntry (e : Entry) : FileInfo where
  name := e.name
  isDir := e.isDir
  size :=
    if e.isDir then none
    else some (match e.stat with
      | some n => formatSize n
      | none => "?")

/-- The listing construction of `handle_file_browse` (lines 558-584): sort by
`(not is_dir, name.lower())`, truncate to the first 50 items, skip
hidden-marker names, render each remaining entry. -/
def buildFiles (items : List Entry) : List FileInfo :=
  ((((sortByLe entLE items).take 50).filter
      (fun e => ! strStartsWith e.name ".")).map renderEntry)

/-- The ordering the listing policy promises on the delivered `files` list:
directories strictly before files, and within one group the lowered names in
lexicographic order. -/
def infoOrd (f g : FileInfo) : Prop :=
  (f.isDir = true ∧ g.isDir = false) ∨
  (f.isDir = g.isDir ∧ lexLe (strLower f.name) (strLower g.name) = true)

/-- An abstract filesystem, the environment of the path-handling code.
`resolve` is `Path.resolve()` (symlinks resolved, `..` and `.` collapsed);
`entries` is `iterdir()` (`none` when it raises `PermissionError`);
`home` is `Path.home()`. -/
structure FS where
  resolve : String → String
  pathExists : String → Bool
  pathIsDir : String → Bool
  entries : String → Option (List Entry)
  home : String

/-- Modelled from the spec: `pocketclaw.tools.fetch.is_safe_path` is imported
by `handle_file_browse` but `tools/fetch.py` is not under `src/`.  Per the
spec (section 4.5) safety holds iff the canonical candidate equals or
descends from the canonical jail root; both arguments are already canonical
at the call site. -/
def is_safe_path (candidate jail : String) : Bool :=
  candidate == jail || strStartsWith candidate (strAppend jail "/")

/-- The pre-resolution step of `handle_file_browse` (lines 523-531): `~` and
the empty path mean home, other relative paths hang off home. -/
def browseRawPath (fs : FS) (path : String) : String :=
  if path = "~" ∨ path = "" then fs.home
  else if ¬ strStartsWith path "/" then strAppend (strAppend fs.home "/") path
  else path

/-- The display path (lines 593-598): `relative_to(Path.home())`, `"."`
shown as `"~"`, failure showing the absolute path. -/
def displayPath (fs : FS) (resolved : String) : String :=
  if resolved = fs.home then "~"
  else if strStartsWith resolved (strAppend fs.home "/") then
    strDrop resolved (fs.home.data.length + 1)
  else resolved

/-- The structured result sent as the `files` event. -/
inductive FilesResult
  | err (e : String)
  | listing (path : String) (files : List FileInfo)
deriving Repr, DecidableEq

def accessDeniedMsg : String := "Access denied: path outside allowed directory"

def notFoundMsg : String := "Path does not exist"

/-- `handle_file_browse` (`dashboard.py` lines 519-604) as a pure function of
the abstract filesystem: resolve the candidate and the jail, run the safety
check on the two canonical paths, then distinguish not-found, not-a-directory
and permission failures before producing the listing. -/
def handle_file_browse (fs : FS) (path : String) (settings : Settings) : FilesResult :=
  let resolved := fs.resolve (browseRawPath fs path)
  let jail := fs.resolve settings.file_jail_path
  if ¬ is_safe_path resolved jail then .err accessDeniedMsg
  else if ¬ fs.pathExists resolved then .err notFoundMsg
  else if ¬ fs.pathIsDir resolved then .err "Not a directory"
  else match fs.entries resolved with
    | none => .err "Permission denied"
    | some items => .listing (displayPath fs resolved) (buildFiles items)

/-! ## Websocket transport (`dashboard.py`, `websocket_endpoint`) -/

/-- The outbound JSON events sent with `websocket.send_json`, discriminated
by their `type` field.  External payloads (reminders, intentions, skills,
screenshots) are kept abstract as strings. -/
inductive WsEvent
  | notification (content : String)
  | message (content : String)
  | error (content : String)
  | statusEv (content : String)
  | screenshotEv (image : String)
  | filesEv (r : FilesResult)
  | settingsEv (agentBackend llmProvider anthropicModel : String)
      (hasAnthropicKey hasOpenaiKey agentActive : Bool)
  | reminderList (rs : List String)
  | reminderAdded (r : String)
  | reminderDeleted (id : String)
  | intentionList (is : List String)
  | intentionCreated (i : String)
  | intentionUpdated (i : String)
  | intentionDeleted (id : String)
  | intentionToggled (i : String)
  | skillList (ss : List String)
  | streamStart
  | streamEnd
deriving Repr, DecidableEq

/-- The observable effects of one step of the websocket loop. -/
inductive WsEff
  | send (ev : WsEvent)
  | persist (file : List (String × JVal))
  | busForward (payload : String)
  | spawnIntentionRun (id : String)
  | deregister
deriving Repr, DecidableEq

/-- The external collaborators reachable from the websocket loop: the
filesystem, the tool helpers, the scheduler, the daemon and the skill
loader. -/
structure WsEnv where
  fs : FS
  systemStatus : String
  screenshot : Except String String
  listDirectory : String → String → String
  reminders : List String
  addReminder : String → Option String
  reminderExists : String → Bool
  intentions : List String
  createIntention : Except String String
  findIntention : String → Option String
  skills : List String
  findSkill : String → Option String
  skillChunks : List WsEvent

/-- The per-connection state of `websocket_endpoint`: the `Settings` object
loaded at connect time and the legacy `agent_active` flag. -/
structure WsState where
  settings : Settings
  agent_active : Bool
deriving Repr, DecidableEq

/-- The `settings` action payload (`dashboard.py` lines 189-196): each field
is `none` when the key is absent from the JSON message. -/
structure SettingsData where
  agent_backend : Option String
  llm_provider : Option String
  anthropic_model : Option String
  bypass_permissions : Option Bool
deriving Repr, DecidableEq

/-- The inbound actions of the socket protocol, discriminated by `action`. -/
inductive WsAction
  | chat (payload : String)
  | tool (tool : String) (path : Option String)
  | toggle_agent (active : Bool)
  | settingsAct (d : SettingsData)
  | save_api_key (provider : String) (key : String)
  | get_settings
  | navigate (path : String)
  | browse (path : String)
  | get_reminders
  | add_reminder (message : String)
  | delete_reminder (id : String)
  | get_intentions
  | create_intention
  | update_intention (id : String)
  | delete_intention (id : String)
  | toggle_intention (id : String)
  | run_intention (id : String)
  | get_skills
  | run_skill (name : String) (args : String)
  | unknownAction
deriving Repr, DecidableEq

/-- `handle_tool` (`dashboard.py` lines 459-505).  Note the `panic` branch:
it only sends a message and stops nothing (the source carries the comment
`TODO: Actually stop agent processes`). -/
def handle_tool (env : WsEnv) (st : WsState) (tool : String) (path? : Option String) :
    List WsEvent :=
  if tool = "status" then [.statusEv env.systemStatus]
  else if tool = "screenshot" then
    match env.screenshot with
    | .ok img => [.screenshotEv img]
    | .error e => [.error e]
  else if tool = "fetch" then
    let p := match path? with
      | some s => if s ≠ "" then s else env.fs.home
      | none => env.fs.home
    [.message (env.listDirectory p st.settings.file_jail_path)]
  else if tool = "panic" then
    [.message "🛑 PANIC: All agent processes stopped!"]
  else [.error (strAppend "Unknown tool: " tool)]

/-- The in-place mutations of the `settings` action before the
`bypass_permissions` line (`dashboard.py` lines 190-193); the
`anthropic_model` update is guarded by Python truthiness. -/
def applySettingsData (s : Settings) (d : SettingsData) : Settings :=
  let s := { s with agent_backend := d.agent_backend.getD s.agent_backend }
  let s := { s with llm_provider := d.llm_provider.getD s.llm_provider }
  match d.anthropic_model with
  | some m => if m ≠ "" then { s with anthropic_model := m } else s
  | none => s

/-- The outcome of handling one inbound action: either the loop continues,
or the handler raised (the exception escapes to the `except Exception`
clause of `websocket_endpoint` and the loop ends). -/
inductive WsStep
  | ok (st : WsState) (out : List WsEff)
  | raised (st : WsState) (out : List WsEff) (err : String)
deriving Repr, DecidableEq

/-- One iteration of the `websocket_endpoint` action dispatch
(`dashboard.py` lines 162-446).  The two `raised` outcomes are the accesses
to `settings.bypass_permissions`, a field that does not exist on the
`Settings` model of `config.py` (pydantic raises on both the write and the
read). -/
def wsHandle (env : WsEnv) (st : WsState) : WsAction → WsStep
  | .chat payload => .ok st [.busForward payload]
  | .tool tool path? => .ok st ((handle_tool env st tool path?).map .send)
  | .toggle_agent active =>
      .ok { st with agent_active := active }
        [.send (.notification (strAppend
          (strAppend "Legacy Mode: " (if active then "ON" else "OFF"))
          " (Bus is always active)"))]
  | .settingsAct d =>
      let s := applySettingsData st.settings d
      match d.bypass_permissions with
      | some _ =>
          .raised { st with settings := s } []
            "ValueError: object has no field bypass_permissions"
      | none =>
          .ok { st with settings := s }
            [.persist s.save, .send (.message "⚙️ Settings updated")]
  | .save_api_key provider key =>
      if provider = "anthropic" ∧ key ≠ "" then
        let s := { st.settings with
          anthropic_api_key := some key, llm_provider := "anthropic" }
        .ok { st with settings := s }
          [.persist s.save, .persist s.save,
           .send (.message "✅ Anthropic API key saved!")]
      else if provider = "openai" ∧ key ≠ "" then
        let s := { st.settings with
          openai_api_key := some key, llm_provider := "openai" }
        .ok { st with settings := s }
          [.persist s.save, .persist s.save,
           .send (.message "✅ OpenAI API key saved!")]
      else
        .ok st [.send (.error "Invalid API key or provider")]
  | .get_settings =>
      .raised st [] "AttributeError: Settings object has no field bypass_permissions"
  | .navigate path =>
      .ok st [.send (.message (env.listDirectory path st.settings.file_jail_path))]
  | .browse path =>
      .ok st [.send (.filesEv (handle_file_browse env.fs path st.settings))]
  | .get_reminders => .ok st [.send (.reminderList env.reminders)]
  | .add_reminder message =>
      match env.addReminder message with
      | some r => .ok st [.send (.reminderAdded r)]
      | none =>
          .ok st [.send (.error
            "Could not parse time from message. Try \x27in 5 minutes\x27 or \x27at 3pm\x27")]
  | .delete_reminder id =>
      if env.reminderExists id then .ok st [.send (.reminderDeleted id)]
      else .ok st [.send (.error "Reminder not found")]
  | .get_intentions => .ok st [.send (.intentionList env.intentions)]
  | .create_intention =>
      match env.createIntention with
      | .ok i => .ok st [.send (.intentionCreated i)]
      | .error e =>
          .ok st [.send (.error (strAppend "Failed to create intention: " e))]
  | .update_intention id =>
      match env.findIntention id with
      | some i => .ok st [.send (.intentionUpdated i)]
      | none => .ok st [.send (.error "Intention not found")]
  | .delete_intention id =>
      if (env.findIntention id).isSome then .ok st [.send (.intentionDeleted id)]
      else .ok st [.send (.error "Intention not found")]
  | .toggle_intention id =>
      match env.findIntention id with
      | some i => .ok st [.send (.intentionToggled i)]
      | none => .ok st [.send (.error "Intention not found")]
  | .run_intention id =>
      match env.findIntention id with
      | some name =>
          .ok st [.send (.notification (strAppend "🚀 Running intention: " name)),
                  .spawnIntentionRun id]
      | none => .ok st [.send (.error "Intention not found")]
  | .get_skills => .ok st [.send (.skillList env.skills)]
  | .run_skill name _args =>
      match env.findSkill name with
      | none => .ok st [.send (.error (strAppend "Skill not found: " name))]
      | some _ =>
          .ok st ([.send (.notification (strAppend "🎯 Running skill: " name)),
                   .send .streamStart] ++
                  env.skillChunks.map .send ++ [.send .streamEnd])
  | .unknownAction => .ok st []

/-- One inbound item of the websocket loop: a decoded action, or the
transport-level disconnect raised by `receive_json`. -/
inductive WsIn
  | act (a : WsAction)
  | disconnect
deriving Repr, DecidableEq

/-- The `while True` receive loop of `websocket_endpoint` with its
`except WebSocketDisconnect` / `except Exception` / `finally` structure:
a disconnect or a raising handler ends the loop, and the `finally` block
deregisters the connection either way; an empty trace means the connection
is still open waiting for input. -/
def wsLoop (env : WsEnv) (st : WsState) : List WsIn → List WsEff
  | [] => []
  | .disconnect :: _ => [.deregister]
  | .act a :: rest =>
    match wsHandle env st a with
    | .ok st' out => out ++ wsLoop env st' rest
    | .raised _ out _ => out ++ [.deregister]

/-! ## Bot gateway (`bot_gateway.py`) -/

/-- Modelled from the spec: `pocketclaw.agents.router.AgentRouter` is
imported by `bot_gateway.py` but `agents/router.py` is not under `src/`.
Per the spec (section 4.3) the controller is bound to the configured
execution-backend variant at allocation time, and `stop` halts its
execution. -/
structure AgentCtl where
  backend : String
  running : Bool
deriving Repr, DecidableEq

/-- Modelled from the spec: `AgentRouter(settings)` — allocation binds the
currently configured backend variant and starts from a stopped state. -/
def AgentRouter.new (s : Settings) : AgentCtl where
  backend := s.agent_backend
  running := false

/-- Modelled from the spec: `AgentRouter.stop()` — idempotent, safe on a
never-started controller, halts execution. -/
def AgentRouter.stop (c : AgentCtl) : AgentCtl := { c with running := false }

/-- One streamed chunk of an agent run (`chunk.get("type")`,
`chunk["content"]`). -/
structure Chunk where
  ctype : String
  content : String
deriving Repr, DecidableEq

/-- The observable effects of a bot handler: Telegram replies of the various
shapes, the settings-file write, the awaited `agent_router.stop()`, and the
best-effort pairing notification `POST /complete`. -/
inductive BotEff
  | reply (text : String)
  | replyPhoto
  | replyDoc (filename : String)
  | editReply (text : String)
  | persist (file : List (String × JVal))
  | stopAgent
  | pairingNotify (uid : Int)
deriving Repr, DecidableEq

/-- The result of `fetch.handle_path` (external, `tools/fetch.py`). -/
inductive FetchRes
  | directory
  | file (filename : String)
deriving Repr, DecidableEq

/-- External collaborators of the bot gateway: the status/screenshot/fetch
tools, the agent run output, and the LLM provider calls. -/
structure BotEnv where
  systemStatus : String
  screenshot : Option String
  fetchHandle : String → FetchRes
  agentChunks : List Chunk
  ollamaUp : Bool
  call : String → Except String String

/-- The mutable state of a `BotGateway` instance (`bot_gateway.py` lines
40-44), with the lazily allocated router objects. -/
structure BotState where
  settings : Settings
  agent_active : Bool
  agent_router : Option AgentCtl
  llm : Option LLMState
deriving Repr, DecidableEq

namespace BotGateway

/-- `BotGateway.is_authorized` (`bot_gateway.py` lines 46-48). -/
def is_authorized (s : Settings) (user_id : Int) : Bool :=
  some user_id == s.allowed_user_id

def startConnectedMsg : String :=
  "🐾 **PocketPaw Connected!**\n\n" ++
  "Your AI agent is now running on your machine.\n\n" ++
  "Use the buttons below to control it, or just type a message to chat."

def welcomeBackMsg : String := "🐾 **Welcome back!**\n\nPocketPaw is ready."

def unauthorizedMsg : String := "⛔ Unauthorized. This bot is locked to another user."

/-- `BotGateway.start` (`bot_gateway.py` lines 50-83).  The first-contact
test is the Python truthiness of `allowed_user_id` (`None` and `0` are both
treated as unbound); on first contact the id is bound, the settings are
saved and the setup web server is notified best-effort. -/
def start (uid : Int) (st : BotState) : BotState × List BotEff :=
  if ¬ truthyOptInt st.settings.allowed_user_id then
    let s := { st.settings with allowed_user_id := some uid }
    ({ st with settings := s },
     [.persist s.save, .pairingNotify uid, .reply startConnectedMsg])
  else if is_authorized st.settings uid then
    (st, [.reply welcomeBackMsg])
  else
    (st, [.reply unauthorizedMsg])

/-- `BotGateway.handle_status` (lines 85-91). -/
def handle_status (env : BotEnv) (uid : Int) (st : BotState) :
    BotState × List BotEff :=
  if ¬ is_authorized st.settings uid then (st, [])
  else (st, [.reply env.systemStatus])

/-- `BotGateway.handle_fetch` (lines 93-103). -/
def handle_fetch (uid : Int) (st : BotState) : BotState × List BotEff :=
  if ¬ is_authorized st.settings uid then (st, [])
  else (st, [.reply (strAppend "📁 **File Browser**\n" st.settings.file_jail_path)])

/-- `BotGateway.handle_fetch_callback` (lines 105-128). -/
def handle_fetch_callback (env : BotEnv) (uid : Int) (st : BotState)
    (data : String) : BotState × List BotEff :=
  if ¬ is_authorized st.settings uid then (st, [])
  else if strStartsWith data "fetch:" then
    let path := strDrop data 6
    match env.fetchHandle path with
    | .directory => (st, [.editReply (strAppend "📁 **File Browser**\n" path)])
    | .file filename => (st, [.replyDoc filename])
  else (st, [])

/-- `BotGateway.handle_screenshot` (lines 130-141). -/
def handle_screenshot (env : BotEnv) (uid : Int) (st : BotState) :
    BotState × List BotEff :=
  if ¬ is_authorized st.settings uid then (st, [])
  else
    (st, .reply "📸 Taking screenshot..." ::
      (match env.screenshot with
       | some _ => [.replyPhoto]
       | none => [.reply "❌ Screenshot failed. Display might not be available."]))

def panicReplyMsg : String := "🛑 **PANIC ACTIVATED**\n\nAll agent processes stopped."

/-- `BotGateway.handle_panic` (lines 143-156): force the flag off, stop the
router if one was ever allocated, confirm. -/
def handle_panic (uid : Int) (st : BotState) : BotState × List BotEff :=
  if ¬ is_authorized st.settings uid then (st, [])
  else
    let st := { st with agent_active := false }
    match st.agent_router with
    | some c =>
        ({ st with agent_router := some (AgentRouter.stop c) },
         [.stopAgent, .reply panicReplyMsg])
    | none => (st, [.reply panicReplyMsg])

def agentOnMsg (backend : String) : String :=
  strAppend (strAppend "🧠 **Agent Mode: ON**\n\nBackend: `" backend)
    ("`\n\nType your requests naturally. The agent has access to your shell and files.\n\n" ++
     "Tap 🛑 Panic to stop at any time.")

def agentOffMsg : String := "🧠 **Agent Mode: OFF**\n\nBack to tool-only mode."

/-- `BotGateway.handle_agent_mode` (lines 158-182): flip the flag; on
activation allocate the router once if absent; on deactivation only reply —
the source calls no stop here. -/
def handle_agent_mode (uid : Int) (st : BotState) : BotState × List BotEff :=
  if ¬ is_authorized st.settings uid then (st, [])
  else
    let active := ¬ st.agent_active
    let st := { st with agent_active := active }
    if active then
      let st :=
        if st.agent_router.isSome then st
        else { st with agent_router := some (AgentRouter.new st.settings) }
      (st, [.reply (agentOnMsg st.settings.agent_backend)])
    else
      (st, [.reply agentOffMsg])

/-- `BotGateway.handle_settings` (lines 184-224): show the menu. -/
def handle_settings (uid : Int) (st : BotState) : BotState × List BotEff :=
  if ¬ is_authorized st.settings uid then (st, [])
  else (st, [.reply "⚙️ **Settings**\n\nChoose your agent backend and LLM provider:"])

/-- `BotGateway.handle_settings_callback` (lines 226-254): mutate the chosen
selector, save, confirm. -/
def handle_settings_callback (uid : Int) (st : BotState) (data : String) :
    BotState × List BotEff :=
  if ¬ is_authorized st.settings uid then (st, [])
  else if data = "noop" then (st, [])
  else if strStartsWith data "settings:backend:" then
    let backend := (strSplitOn data ':').getLast?.getD ""
    let s := { st.settings with agent_backend := backend }
    ({ st with settings := s },
     [.persist s.save,
      .editReply (strAppend (strAppend "✅ Agent backend set to: **" backend) "**")])
  else if strStartsWith data "settings:llm:" then
    let provider := (strSplitOn data ':').getLast?.getD ""
    let s := { st.settings with llm_provider := provider }
    ({ st with settings := s },
     [.persist s.save,
      .editReply (strAppend (strAppend "✅ LLM provider set to: **" provider) "**")])
  else (st, [])

/-- The chunk forwarding of the agent branch of `handle_message` (lines
280-287): `message` chunks are replied verbatim, `code` chunks fenced,
anything else skipped. -/
def chunkReply (c : Chunk) : Option BotEff :=
  if c.ctype = "message" then some (.reply c.content)
  else if c.ctype = "code" then
    some (.reply (strAppend (strAppend "```\n" c.content) "\n```"))
  else none

/-- `BotGateway.handle_message` (lines 256-294): keyboard dispatch, then the
agent branch, else plain LLM chat through a lazily allocated `LLMRouter`. -/
def handle_message (env : BotEnv) (uid : Int) (st : BotState) (text : String) :
    BotState × List BotEff :=
  if ¬ is_authorized st.settings uid then (st, [])
  else if text = "🟢 Status" then handle_status env uid st
  else if text = "📁 Fetch" then handle_fetch uid st
  else if text = "📸 Screenshot" then handle_screenshot env uid st
  else if text = "🛑 Panic" then handle_panic uid st
  else if text = "🧠 Agent Mode" then handle_agent_mode uid st
  else if text = "⚙️ Settings" then handle_settings uid st
  else if st.agent_active ∧ st.agent_router.isSome then
    (st, .reply "🧠 Thinking..." :: env.agentChunks.filterMap chunkReply)
  else
    let llm0 := st.llm.getD ⟨[], none⟩
    let r := LLMRouter.chat env.call st.settings env.ollamaUp llm0 text
    ({ st with llm := some r.1 }, [.reply r.2])

end BotGateway

/-- The inbound updates the bot application dispatches (`run_bot`, lines
297-311): the `/start` command, the two callback-query patterns, and plain
text messages. -/
inductive BotAction
  | start
  | fetchCallback (data : String)
  | settingsCallback (data : String)
  | message (text : String)
deriving Repr, DecidableEq

/-- The bot-transport dispatcher: one inbound update, carrying the requester
id `uid` (`update.effective_user.id` / `query.from_user.id`), handled to
completion. -/
def botHandle (env : BotEnv) (a : BotAction) (uid : Int) (st : BotState) :
    BotState × List BotEff :=
  match a with
  | .start => BotGateway.start uid st
  | .fetchCallback data => BotGateway.handle_fetch_callback env uid st data
  | .settingsCallback data => BotGateway.handle_settings_callback uid st data
  | .message text => BotGateway.handle_message env uid st text

/-! ## Concrete instances used to exercise the model -/

/-- A directory population with directories, plain files, a hidden-marker
name and an entry whose stat call fails. -/
def entriesW : List Entry :=
  [ ⟨"zeta.txt", false, some 2048⟩,
    ⟨"Alpha", true, none⟩,
    ⟨".hidden", false, some 1⟩,
    ⟨"beta.txt", false, none⟩,
    ⟨"gamma", true, some 0⟩ ]

/-- A small concrete filesystem: home is the jail, one real subdirectory,
one `..`-traversal target and one symlink inside the jail resolving outside. -/
def fsW : FS where
  resolve := fun p =>
    if p == "/home/user/a/../../etc/passwd" then "/etc/passwd"
    else if p == "/home/user/link" then "/etc/shadow"
    else p
  pathExists := fun p =>
    p == "/home/user" || p == "/home/user/sub" || p == "/etc/passwd"
  pathIsDir := fun p => p == "/home/user" || p == "/home/user/sub"
  entries := fun p => if p == "/home/user/sub" then some entriesW else some []
  home := "/home/user"

/-- A concrete websocket environment. -/
def envW : WsEnv where
  fs := fsW
  systemStatus := "CPU 1%"
  screenshot := .error "Screenshot failed"
  listDirectory := fun p _ => strAppend "listing of " p
  reminders := ["r1"]
  addReminder := fun _ => none
  reminderExists := fun id => id == "r1"
  intentions := []
  createIntention := .error "boom"
  findIntention := fun _ => none
  skills := []
  findSkill := fun _ => none
  skillChunks := []

/-- A concrete bot environment. -/
def botEnvW : BotEnv where
  systemStatus := "CPU 1%"
  screenshot := none
  fetchHandle := fun _ => .directory
  agentChunks := [⟨"message", "done"⟩]
  ollamaUp := false
  call := fun _ => .ok "hello"

/-- Settings with the jail at home. -/
def sW : Settings := Settings.defaults "/home/user"

/-- Settings with a bound (nonzero) owner id. -/
def sB : Settings := { sW with allowed_user_id := some 7 }

/-! ## Order lemmas for the listing sort -/

theorem lexLe_total : ∀ a b : List Nat, lexLe a b = true ∨ lexLe b a = true := by
  intro a
  induction a with
  | nil => intro b; left; rfl
  | cons x xs ih =>
    intro b
    cases b with
    | nil => right; rfl
    | cons y ys =>
      by_cases hxy : x < y
      · left; simp [lexLe, hxy]
      · by_cases hyx : y < x
        · right; simp [lexLe, hyx]
        · have hxe : x = y := by omega
          subst hxe
          rcases ih ys with h | h
          · left; simp [lexLe, h]
          · right; simp [lexLe, h]

theorem lexLe_trans :
    ∀ a b c : List Nat, lexLe a b = true → lexLe b c = true → lexLe a c = true := by
  intro a
  induction a with
  | nil => intro b c _ _; rfl
  | cons x xs ih =>
    intro b c h1 h2
    cases b with
    | nil => simp [lexLe] at h1
    | cons y ys =>
      cases c with
      | nil => simp [lexLe] at h2
      | cons z zs =>
        simp only [lexLe] at h1 h2 ⊢
        by_cases hxy : x < y
        · by_cases hyz : y < z
          · have : x < z := by omega
            simp [this]
          · by_cases hyz2 : y = z
            · have : x < z := by omega
              simp [this]
            · simp [hyz, hyz2] at h2
        · by_cases hxy2 : x = y
          · subst hxy2
            simp only [lt_irrefl, if_false, if_pos rfl] at h1
            by_cases hyz : x < z
            · simp [hyz]
            · by_cases hyz2 : x = z
              · subst hyz2
                simp only [lt_irrefl, if_false, if_pos rfl] at h2 ⊢
                exact ih ys zs h1 h2
              · simp [hyz, hyz2] at h2
          · simp [hxy, hxy2] at h1

theorem entLE_total : ∀ a b : Entry, entLE a b = true ∨ entLE b a = true := by
  intro a b
  simp only [entLE, Bool.or_eq_true, Bool.and_eq_true, decide_eq_true_eq]
  by_cases h : entKey a < entKey b
  · exact Or.inl (Or.inl h)
  · by_cases h2 : entKey b < entKey a
    · exact Or.inr (Or.inl h2)
    · have he : entKey a = entKey b := by omega
      rcases lexLe_total (strLower a.name) (strLower b.name) with hl | hl
      · exact Or.inl (Or.inr ⟨he, hl⟩)
      · exact Or.inr (Or.inr ⟨he.symm, hl⟩)

theorem entLE_trans :
    ∀ a b c : Entry, entLE a b = true → entLE b c = true → entLE a c = true := by
  intro a b c h1 h2
  simp only [entLE, Bool.or_eq_true, Bool.and_eq_true, decide_eq_true_eq] at h1 h2 ⊢
  rcases h1 with h1 | ⟨h1e, h1l⟩
  · rcases h2 with h2 | ⟨h2e, _⟩
    · exact Or.inl (by omega)
    · exact Or.inl (by omega)
  · rcases h2 with h2 | ⟨h2e, h2l⟩
    · exact Or.inl (by omega)
    · exact Or.inr ⟨by omega, lexLe_trans _ _ _ h1l h2l⟩

theorem mem_insertSorted {α : Type} (le : α → α → Bool) (x y : α) :
    ∀ l : List α, y ∈ insertSorted le x l → y = x ∨ y ∈ l := by
  intro l
  induction l with
  | nil =>
    intro h
    simp [insertSorted] at h
    exact Or.inl h
  | cons z zs ih =>
    intro h
    simp only [insertSorted] at h
    by_cases hle : le x z = true
    · rw [if_pos hle] at h
      rcases List.mem_cons.mp h with h | h
      · exact Or.inl h
      · exact Or.inr h
    · rw [if_neg hle] at h
      rcases List.mem_cons.mp h with h | h
      · exact Or.inr (h ▸ List.mem_cons_self z zs)
      · rcases ih h with h | h
        · exact Or.inl h
        · exact Or.inr (List.mem_cons_of_mem z h)

theorem pairwise_insertSorted {α : Type} (le : α → α → Bool)
    (htrans : ∀ a b c, le a b = true → le b c = true → le a c = true)
    (htotal : ∀ a b, le a b = true ∨ le b a = true) (x : α) :
    ∀ l : List α, List.Pairwise (fun a b => le a b = true) l →
      List.Pairwise (fun a b => le a b = true) (insertSorted le x l) := by
  intro l
  induction l with
  | nil => intro _; simp [insertSorted]
  | cons z zs ih =>
    intro h
    rcases List.pairwise_cons.mp h with ⟨hz, hzs⟩
    simp only [insertSorted]
    by_cases hle : le x z = true
    · rw [if_pos hle]
      refine List.pairwise_cons.mpr ⟨?_, h⟩
      intro y hy
      rcases List.mem_cons.mp hy with rfl | hy
      · exact hle
      · exact htrans x z y hle (hz y hy)
    · rw [if_neg hle]
      refine List.pairwise_cons.mpr ⟨?_, ih hzs⟩
      intro y hy
      rcases mem_insertSorted le x y zs hy with rfl | hy
      · rcases htotal z y with h' | h'
        · exact h'
        · exact absurd h' hle
      · exact hz y hy

theorem pairwise_sortByLe {α : Type} (le : α → α → Bool)
    (htrans : ∀ a b c, le a b = true → le b c = true → le a c = true)
    (htotal : ∀ a b, le a b = true ∨ le b a = true) :
    ∀ l : List α, List.Pairwise (fun a b => le a b = true) (sortByLe le l) := by
  intro l
  induction l with
  | nil => simp [sortByLe]
  | cons x xs ih =>
    exact pairwise_insertSorted le htrans htotal x (sortByLe le xs) ih

theorem entLE_infoOrd {a b : Entry} (hab : entLE a b = true) :
    infoOrd (renderEntry a) (renderEntry b) := by
  simp only [entLE, Bool.or_eq_true, Bool.and_eq_true, decide_eq_true_eq] at hab
  unfold infoOrd renderEntry
  rcases hab with h | ⟨he, hl⟩
  · left
    unfold entKey at h
    by_cases ha : a.isDir <;> by_cases hb : b.isDir <;>
      simp [ha, hb] at h ⊢
  · right
    unfold entKey at he
    refine ⟨?_, hl⟩
    by_cases ha : a.isDir <;> by_cases hb : b.isDir <;>
      simp [ha, hb] at he ⊢

/-! ## Claim theorems -/

/-- Claim C9: every listing `buildFiles` produces has at most 50 entries and
no hidden-marker-leading name; directories are ordered before files and each
group is in case-insensitive lexicographic name order; an entry whose stat
call failed is rendered with the unknown-size marker `"?"` instead of
failing the whole listing (the construction is total). -/
theorem c9_listing_policy (items : List Entry) :
    (buildFiles items).length ≤ 50 ∧
    (∀ f ∈ buildFiles items, strStartsWith f.name "." = false) ∧
    List.Pairwise infoOrd (buildFiles items) ∧
    (∀ f ∈ buildFiles items, f.isDir = false →
      f.size = some "?" ∨ ∃ n, f.size = some (formatSize n)) := by
  refine ⟨?_, ?_, ?_, ?_⟩
  · unfold buildFiles
    rw [List.length_map]
    exact le_trans (List.length_filter_le _ _) (List.length_take_le _ _)
  · intro f hf
    unfold buildFiles at hf
    rcases List.mem_map.mp hf with ⟨e, he, rfl⟩
    have h2 := (List.mem_filter.mp he).2
    simp only [Bool.not_eq_true'] at h2
    exact h2
  · unfold buildFiles
    refine List.Pairwise.map renderEntry (fun a b hab => entLE_infoOrd hab) ?_
    exact List.Pairwise.sublist
      ((List.filter_sublist _).trans (List.take_sublist _ _))
      (pairwise_sortByLe entLE entLE_trans entLE_total items)
  · intro f hf hdir
    unfold buildFiles at hf
    rcases List.mem_map.mp hf with ⟨e, _, rfl⟩
    simp only [renderEntry] at hdir ⊢
    rw [hdir]
    cases h : e.stat with
    | none => left; simp
    | some n => right; exact ⟨n, by simp⟩

/-- Claim C9 witness: the policy theorem instantiated on the concrete
population `entriesW`, together with the evaluated listing it yields. -/
theorem c9_listing_policy_witness :
    ((buildFiles entriesW).length ≤ 50 ∧
     (∀ f ∈ buildFiles entriesW, strStartsWith f.name "." = false) ∧
     List.Pairwise infoOrd (buildFiles entriesW) ∧
     (∀ f ∈ buildFiles entriesW, f.isDir = false →
       f.size = some "?" ∨ ∃ n, f.size = some (formatSize n))) ∧
    buildFiles entriesW =
      [⟨"Alpha", true, none⟩, ⟨"gamma", true, none⟩,
       ⟨"beta.txt", false, some "?"⟩, ⟨"zeta.txt", false, some "2.0 KB"⟩] :=
  ⟨c9_listing_policy entriesW, by decide⟩

/-- Claim C4: `handle_file_browse` canonicalizes the candidate and the jail
root (both are passed through `FS.resolve`) before the safety comparison,
and a candidate resolving outside the jail yields exactly the explicit
access-denied error — distinct from the not-found error — with no listing. -/
theorem c4_traversal_rejected (fs : FS) (path : String) (s : Settings)
    (h : is_safe_path (fs.resolve (browseRawPath fs path))
        (fs.resolve s.file_jail_path) = false) :
    handle_file_browse fs path s = .err accessDeniedMsg ∧
    accessDeniedMsg ≠ notFoundMsg ∧
    ∀ p files, handle_file_browse fs path s ≠ .listing p files := by
  have h1 : handle_file_browse fs path s = .err accessDeniedMsg := by
    unfold handle_file_browse
    simp [h]
  exact ⟨h1, by decide, fun p files => by rw [h1]; intro hc; cases hc⟩

/-- Claim C4 witness: a `..`-traversal candidate and an inside-jail symlink
resolving outside are both rejected with the access-denied error on the
concrete filesystem `fsW`. -/
theorem c4_traversal_rejected_witness :
    handle_file_browse fsW "a/../../etc/passwd" sW = .err accessDeniedMsg ∧
    handle_file_browse fsW "link" sW = .err accessDeniedMsg :=
  ⟨(c4_traversal_rejected fsW "a/../../etc/passwd" sW (by decide)).1,
   (c4_traversal_rejected fsW "link" sW (by decide)).1⟩

/-- Claim C7: with the provider set to `auto`, a reachable local Ollama
service is selected no matter which remote credentials are configured; with
it unreachable, the first configured remote credential wins in the fixed
order OpenAI before Anthropic; with nothing satisfied detection yields no
backend. -/
theorem c7_auto_priority (s : Settings) (h : s.llm_provider = "auto") :
    LLMRouter.detect_backend s true = some "ollama" ∧
    (truthyOptStr s.openai_api_key = true →
      LLMRouter.detect_backend s false = some "openai") ∧
    (truthyOptStr s.openai_api_key = false →
     truthyOptStr s.anthropic_api_key = true →
      LLMRouter.detect_backend s false = some "anthropic") ∧
    (truthyOptStr s.openai_api_key = false →
     truthyOptStr s.anthropic_api_key = false →
      LLMRouter.detect_backend s false = none) := by
  refine ⟨?_, ?_, ?_, ?_⟩
  · simp [LLMRouter.detect_backend, h]
  · intro h1; simp [LLMRouter.detect_backend, h, h1]
  · intro h1 h2; simp [LLMRouter.detect_backend, h, h1, h2]
  · intro h1 h2; simp [LLMRouter.detect_backend, h, h1, h2]

/-- Claim C7 witness: with both remote credentials configured, detection
still picks Ollama while it is reachable, and OpenAI once it is not. -/
theorem c7_auto_priority_witness :
    LLMRouter.detect_backend
      { sW with openai_api_key := some "sk-oa", anthropic_api_key := some "sk-an" }
      true = some "ollama" ∧
    LLMRouter.detect_backend
      { sW with openai_api_key := some "sk-oa", anthropic_api_key := some "sk-an" }
      false = some "openai" :=
  ⟨(c7_auto_priority _ rfl).1, (c7_auto_priority _ rfl).2.1 (by decide)⟩

/-- Claim C8: when the selected provider call raises during `chat`, the
diagnostic string is returned instead of raising and the history grows by
exactly the user turn (no rollback, no paired assistant turn); on success it
grows by exactly the user turn and the assistant turn. -/
theorem c8_provider_failure_history (call : String → Except String String)
    (s : Settings) (up : Bool) (st : LLMState) (msg b : String)
    (hsel : st.available_backend = some b)
    (hb : b = "ollama" ∨ b = "openai" ∨ b = "anthropic") :
    (∀ e, call b = .error e →
      LLMRouter.chat call s up st msg =
        ({ st with conversation_history := st.conversation_history ++ [⟨"user", msg⟩] },
          LLMRouter.llmErrorMsg e)) ∧
    (∀ r, call b = .ok r →
      LLMRouter.chat call s up st msg =
        ({ st with conversation_history :=
            st.conversation_history ++ [⟨"user", msg⟩, ⟨"assistant", r⟩] }, r)) := by
  obtain ⟨hist, avail⟩ := st
  simp only at hsel
  subst hsel
  rcases hb with rfl | rfl | rfl <;>
    exact ⟨fun e he => by simp [LLMRouter.chat, truthyOptStr, he],
           fun r hr => by simp [LLMRouter.chat, truthyOptStr, hr]⟩

/-- Claim C8 witness: a failing and a succeeding provider call on a concrete
router state, with the evaluated resulting histories. -/
theorem c8_provider_failure_history_witness :
    LLMRouter.chat (fun _ => .error "boom") sW false ⟨[], some "openai"⟩ "hi" =
      (⟨[⟨"user", "hi"⟩], some "openai"⟩, LLMRouter.llmErrorMsg "boom") ∧
    LLMRouter.chat (fun _ => .ok "yo") sW false ⟨[], some "openai"⟩ "hi" =
      (⟨[⟨"user", "hi"⟩, ⟨"assistant", "yo"⟩], some "openai"⟩, "yo") :=
  ⟨(c8_provider_failure_history (fun _ => .error "boom") sW false ⟨[], some "openai"⟩
      "hi" "openai" rfl (Or.inr (Or.inl rfl))).1 "boom" rfl,
   (c8_provider_failure_history (fun _ => .ok "yo") sW false ⟨[], some "openai"⟩
      "hi" "openai" rfl (Or.inr (Or.inl rfl))).2 "yo" rfl⟩

/-- Claim C10: when no backend is cached and detection yields none, `chat`
returns the guided diagnostic and the router state — in particular the
conversation history — is completely unchanged: no user turn is appended. -/
theorem c10_no_backend_no_history (call : String → Except String String)
    (s : Settings) (up : Bool) (st : LLMState) (msg : String)
    (h1 : st.available_backend = none)
    (h2 : LLMRouter.detect_backend s up = none) :
    LLMRouter.chat call s up st msg = (st, LLMRouter.noBackendMsg) := by
  obtain ⟨hist, avail⟩ := st
  simp only at h1
  subst h1
  simp [LLMRouter.chat, truthyOptStr, h2]

/-- Claim C10 witness: an explicit `openai` provider with no key configured
yields no backend even with Ollama reachable, and `chat` leaves the state
untouched. -/
theorem c10_no_backend_no_history_witness :
    LLMRouter.chat (fun _ => .ok "never") { sW with llm_provider := "openai" } true
      ⟨[], none⟩ "hi" = (⟨[], none⟩, LLMRouter.noBackendMsg) :=
  c10_no_backend_no_history (fun _ => .ok "never") { sW with llm_provider := "openai" }
    true ⟨[], none⟩ "hi" rfl (by decide)

/-- Claim C1 counterexample: the claim quantifies over both transports, but
the socket transport identifies no requester at all — with an owner bound,
a `settings` action arriving on the websocket (hence from an arbitrary,
possibly non-owner client) is processed: the settings mutate, the mutated
file is persisted and a success message is emitted, with no denial. -/
theorem c1_socket_mutation_counterexample :
    wsHandle envW ⟨sB, false⟩ (.settingsAct ⟨some "claude_code", none, none, none⟩) =
      .ok ⟨{ sB with agent_backend := "claude_code" }, false⟩
        [.persist ({ sB with agent_backend := "claude_code" } : Settings).save,
         .send (.message "⚙️ Settings updated")] ∧
    ({ sB with agent_backend := "claude_code" } : Settings) ≠ sB := by
  decide

/-- Claim C1 (amended): on the bot transport, once a nonzero owner id is
bound (the source treats a missing or zero id as unbound), every inbound
update whose requester id differs from the owner id leaves the entire
gateway state — stored owner id, settings, agent-mode flag, router and
conversation history — unchanged, and produces at most reply effects (a
possibly silent denial); in particular a pairing attempt by a different id
never rebinds the owner. -/
theorem c1_bot_stranger_inert (env : BotEnv) (a : BotAction) (uid o : Int)
    (st : BotState) (hb : st.settings.allowed_user_id = some o) (ho : o ≠ 0)
    (hu : uid ≠ o) :
    (botHandle env a uid st).1 = st ∧
    ∀ e ∈ (botHandle env a uid st).2, ∃ t, e = BotEff.reply t := by
  have hauth : BotGateway.is_authorized st.settings uid = false := by
    simp only [BotGateway.is_authorized, hb]
    simp [hu]
  have htruthy : truthyOptInt st.settings.allowed_user_id = true := by
    simp [truthyOptInt, hb, ho]
  cases a with
  | start =>
    simp [botHandle, BotGateway.start, htruthy, hauth]
  | fetchCallback data =>
    simp [botHandle, BotGateway.handle_fetch_callback, hauth]
  | settingsCallback data =>
    simp [botHandle, BotGateway.handle_settings_callback, hauth]
  | message text =>
    simp [botHandle, BotGateway.handle_message, hauth]

/-- Claim C1 witness: a pairing attempt (`/start`) by requester 5 against
owner 7 changes nothing and yields only the denial reply. -/
theorem c1_bot_stranger_inert_witness :
    (botHandle botEnvW .start 5 ⟨sB, false, none, none⟩).1 = ⟨sB, false, none, none⟩ ∧
    ∀ e ∈ (botHandle botEnvW .start 5 ⟨sB, false, none, none⟩).2,
      ∃ t, e = BotEff.reply t :=
  c1_bot_stranger_inert botEnvW .start 5 7 ⟨sB, false, none, none⟩ rfl
    (by decide) (by decide)

/-- Claim C2: toggling agent mode from on to off flips the flag to off and
replies, but invokes no stop at all — the allocated controller is left in
place, still running; this contradicts the claimed
stop-before-flag-flip behaviour. -/
theorem c2_toggle_off_no_stop :
    BotGateway.handle_agent_mode 7
        ⟨sB, true, some ⟨"open_interpreter", true⟩, none⟩ =
      (⟨sB, false, some ⟨"open_interpreter", true⟩, none⟩,
       [.reply BotGateway.agentOffMsg]) ∧
    BotEff.stopAgent ∉
      (BotGateway.handle_agent_mode 7
        ⟨sB, true, some ⟨"open_interpreter", true⟩, none⟩).2 := by
  decide

/-- Claim C3: the socket-transport panic path (`handle_tool` with `panic`)
only sends the confirmation message; invoked twice it raises nothing, but it
performs zero state change — the agent-active flag stays on and no stop
effect of any kind is produced, so a previously running execution is not
cut off (the source marks this with `TODO: Actually stop agent processes`). -/
theorem c3_ws_panic_stub :
    wsHandle envW ⟨sB, true⟩ (.tool "panic" none) =
      .ok ⟨sB, true⟩ [.send (.message "🛑 PANIC: All agent processes stopped!")] ∧
    wsLoop envW ⟨sB, true⟩
        [.act (.tool "panic" none), .act (.tool "panic" none), .disconnect] =
      [.send (.message "🛑 PANIC: All agent processes stopped!"),
       .send (.message "🛑 PANIC: All agent processes stopped!"), .deregister] := by
  decide

/-- Claim C5 counterexample: the loop is ended by more than transport
disconnects — a `get_settings` action always raises (it reads the
`bypass_permissions` field missing from the `Settings` model), so a
subsequent `get_reminders` on the same connection is never processed and
the loop deregisters after the first action. -/
theorem c5_crash_counterexample :
    wsLoop envW ⟨sB, false⟩
        [.act .get_settings, .act .get_reminders, .disconnect] = [.deregister] ∧
    WsEff.send (.reminderList envW.reminders) ∉
      wsLoop envW ⟨sB, false⟩
        [.act .get_settings, .act .get_reminders, .disconnect] := by
  decide

/-- Claim C5 (amended): every recognized per-action error — a missing
reminder or intention, an unknown tool, a path-traversal rejection — is
reported in-band as an error event and the handler completes normally, and a
normally completing action never terminates the loop (the loop continues
with the remaining inbound actions); the loop is ended only by a transport
disconnect or by an uncaught handler exception, and both ends are converted
into deregistration. -/
theorem c5_recognized_errors_isolated (env : WsEnv) (st : WsState) :
    (∀ a st' out rest, wsHandle env st a = .ok st' out →
        wsLoop env st (.act a :: rest) = out ++ wsLoop env st' rest) ∧
    (∀ rest, wsLoop env st (.disconnect :: rest) = [.deregister]) ∧
    (∀ a st' out err rest, wsHandle env st a = .raised st' out err →
        wsLoop env st (.act a :: rest) = out ++ [.deregister]) ∧
    (∀ id, env.reminderExists id = false →
        wsHandle env st (.delete_reminder id) =
          .ok st [.send (.error "Reminder not found")]) ∧
    (∀ id, env.findIntention id = none →
        wsHandle env st (.update_intention id) =
          .ok st [.send (.error "Intention not found")]) ∧
    (∀ tool path?, tool ≠ "status" → tool ≠ "screenshot" → tool ≠ "fetch" →
        tool ≠ "panic" →
        wsHandle env st (.tool tool path?) =
          .ok st [.send (.error (strAppend "Unknown tool: " tool))]) ∧
    (∀ path, is_safe_path (env.fs.resolve (browseRawPath env.fs path))
          (env.fs.resolve st.settings.file_jail_path) = false →
        wsHandle env st (.browse path) =
          .ok st [.send (.filesEv (.err accessDeniedMsg))]) := by
  refine ⟨?_, ?_, ?_, ?_, ?_, ?_, ?_⟩
  · intro a st' out rest h
    simp [wsLoop, h]
  · intro rest; rfl
  · intro a st' out err rest h
    simp [wsLoop, h]
  · intro id h
    simp [wsHandle, h]
  · intro id h
    simp [wsHandle, h]
  · intro tool path? h1 h2 h3 h4
    simp [wsHandle, handle_tool, h1, h2, h3, h4]
  · intro path h
    simp [wsHandle, handle_file_browse, h]

/-- Claim C5 witness: a not-found reminder deletion is reported in-band and
the following action on the same connection is still processed, ending in
deregistration only at the disconnect. -/
theorem c5_recognized_errors_isolated_witness :
    wsHandle envW ⟨sB, false⟩ (.delete_reminder "zz") =
      .ok ⟨sB, false⟩ [.send (.error "Reminder not found")] ∧
    wsLoop envW ⟨sB, false⟩
        [.act (.delete_reminder "zz"), .act .get_reminders, .disconnect] =
      [.send (.error "Reminder not found"),
       .send (.reminderList ["r1"]), .deregister] :=
  ⟨(c5_recognized_errors_isolated envW ⟨sB, false⟩).2.2.2.1 "zz" (by decide),
   by decide⟩

/-- Claim C6 counterexample: the settings file written by `Settings.save`
holds neither the jail root path nor the transport bind address — none of
`file_jail_path`, `web_host`, `web_port` is among the written keys. -/
theorem c6_missing_fields_counterexample :
    ((sW.save.map Prod.fst).contains "file_jail_path" = false) ∧
    ((sW.save.map Prod.fst).contains "web_host" = false) ∧
    ((sW.save.map Prod.fst).contains "web_port" = false) := by
  decide

/-- Claim C6 (amended): every save rewrites the settings file in full with
the fixed key set — telegram token, owner id, execution-backend selector,
chat-provider selector and the per-provider credentials/model names (but not
the jail root or the bind address) — and the socket-transport settings
mutations persist the file strictly before emitting their success message. -/
theorem c6_persist_before_success (s : Settings) (env : WsEnv) (st : WsState)
    (d : SettingsData) (hd : d.bypass_permissions = none) :
    (s.save.map Prod.fst =
      ["telegram_bot_token", "allowed_user_id", "agent_backend", "llm_provider",
       "ollama_host", "ollama_model", "openai_api_key", "openai_model",
       "anthropic_api_key", "anthropic_model"]) ∧
    (wsHandle env st (.settingsAct d) =
      .ok { st with settings := applySettingsData st.settings d }
        [.persist (applySettingsData st.settings d).save,
         .send (.message "⚙️ Settings updated")]) ∧
    (∀ key, key ≠ "" →
      wsHandle env st (.save_api_key "anthropic" key) =
        .ok { st with settings := { st.settings with
                anthropic_api_key := some key, llm_provider := "anthropic" } }
          [.persist ({ st.settings with
                        anthropic_api_key := some key,
                        llm_provider := "anthropic" } : Settings).save,
           .persist ({ st.settings with
                        anthropic_api_key := some key,
                        llm_provider := "anthropic" } : Settings).save,
           .send (.message "✅ Anthropic API key saved!")]) := by
  refine ⟨rfl, ?_, ?_⟩
  · simp [wsHandle, hd]
  · intro key hk
    simp [wsHandle, hk]

/-- Claim C6 witness: a concrete provider-selector mutation and a concrete
key save, each persisting the full rewritten file before the success
message. -/
theorem c6_persist_before_success_witness :
    (sB.save.map Prod.fst =
      ["telegram_bot_token", "allowed_user_id", "agent_backend", "llm_provider",
       "ollama_host", "ollama_model", "openai_api_key", "openai_model",
       "anthropic_api_key", "anthropic_model"]) ∧
    wsHandle envW ⟨sB, false⟩ (.settingsAct ⟨none, some "anthropic", none, none⟩) =
      .ok ⟨{ sB with llm_provider := "anthropic" }, false⟩
        [.persist ({ sB with llm_provider := "anthropic" } : Settings).save,
         .send (.message "⚙️ Settings updated")] :=
  ⟨(c6_persist_before_success sB envW ⟨sB, false⟩
      ⟨none, some "anthropic", none, none⟩ rfl).1,
   by decide⟩

end Pocketclaw
